import Mathlib

/-!
Verification of the feedback-collector server (`src/mcp_feedback_collector/server.py`).

The program is a PySide6 GUI exposing three MCP tools: `collect_feedback`,
`pick_image` and `get_image_info`.  We shallowly embed the pure logic of the
dialog and the tool entry points.  External effects (the PIL image codec, the
filesystem, the Qt clipboard, the file picker and the wall clock) appear as
explicit parameters, so every definition is an executable total function.
-/

namespace MCPFeedback

/-- A byte string: each entry is one byte (`< 256`). -/
abbrev ByteSeq := List Nat

/-- Result of `PIL.Image.open` on a byte string: either the call raises
(`error`) or it succeeds and `pil_image.format` is `format` (Python `None`
becomes `Option.none`). -/
inductive PILResult where
  | error : PILResult
  | ok (format : Option String) : PILResult
deriving DecidableEq

/-- One entry of `FeedbackDialog.selected_images_data`: the raw bytes and the
filename recorded at acquisition time (the preview pixmap carries no further
information relevant to submission). -/
structure SelectedImage where
  data : ByteSeq
  filename : String
deriving DecidableEq

/-- The transport image record built at submission / by `pick_image`
(the `MCPImage` fields actually used by the program). -/
structure MCPImageRec where
  base64_data : String
  format : String
  filename : String
deriving DecidableEq

/-- One item of the feedback sequence: a raw text string or an image record. -/
inductive FeedbackItem where
  | text (s : String) : FeedbackItem
  | image (rec : MCPImageRec) : FeedbackItem
deriving DecidableEq

/-! ## Base64 (RFC 4648), as used by `base64.b64encode` -/

/-- The standard base64 alphabet. -/
def b64Alphabet : List Char :=
  ['A', 'B', 'C', 'D', 'E', 'F', 'G', 'H', 'I', 'J', 'K', 'L', 'M',
   'N', 'O', 'P', 'Q', 'R', 'S', 'T', 'U', 'V', 'W', 'X', 'Y', 'Z',
   'a', 'b', 'c', 'd', 'e', 'f', 'g', 'h', 'i', 'j', 'k', 'l', 'm',
   'n', 'o', 'p', 'q', 'r', 's', 't', 'u', 'v', 'w', 'x', 'y', 'z',
   '0', '1', '2', '3', '4', '5', '6', '7', '8', '9', '+', '/']

/-- The alphabet character of a 6-bit value. -/
def b64Char (n : Nat) : Char := b64Alphabet.getD n 'A'

/-- The 6-bit value of an alphabet character. -/
def b64Index (c : Char) : Nat := b64Alphabet.indexOf c

/-- `base64.b64encode`: groups of three bytes become four alphabet
characters; a final group of one or two bytes is padded with `=`. -/
def b64Encode : ByteSeq → List Char
  | [] => []
  | [a] => [b64Char (a / 4), b64Char (a % 4 * 16), '=', '=']
  | [a, b] => [b64Char (a / 4), b64Char (a % 4 * 16 + b / 16), b64Char (b % 16 * 4), '=']
  | a :: b :: c :: rest =>
      b64Char (a / 4) :: b64Char (a % 4 * 16 + b / 16) ::
      b64Char (b % 16 * 4 + c / 64) :: b64Char (c % 64) :: b64Encode rest

/-- `base64.b64decode` on well-formed input. -/
def b64Decode : List Char → ByteSeq
  | c1 :: c2 :: c3 :: c4 :: rest =>
      let a := b64Index c1 * 4 + b64Index c2 / 16
      if c3 = '=' then [a]
      else
        let b := b64Index c2 % 16 * 16 + b64Index c3 / 4
        if c4 = '=' then [a, b]
        else a :: b :: (b64Index c3 % 4 * 64 + b64Index c4) :: b64Decode rest
  | _ => []

/-! ## The dialog controller -/

/-- The placeholder hint of the feedback text field
(`setPlaceholderText` in `_create_feedback_text_group`). -/
def placeholderText : String := "请在此输入您的反馈、建议或问题..."

/-- Python's `str.lower()` on the ASCII format names PIL reports. -/
def pyLower (s : String) : String := String.mk (s.data.map Char.toLower)

/-- Python's `str.strip()` with no argument: drop leading and trailing
whitespace. -/
def pyStrip (s : String) : String :=
  String.mk (((s.data.dropWhile Char.isWhitespace).reverse.dropWhile
    Char.isWhitespace).reverse)

/-- Default dialog timeout in seconds (`DEFAULT_DIALOG_TIMEOUT`). -/
def DEFAULT_DIALOG_TIMEOUT : Int := 300

/-- The per-image body of the submission loop in `submit_feedback_pyside`:
`Image.open` the stored bytes (a raised exception drops the image), resolve
the format with the `or "PNG"` fallback, base64-encode the bytes, and build
the image dictionary.  `pil` models `PIL.Image.open`. -/
def imageToRecord (pil : ByteSeq → PILResult) (img : SelectedImage) : Option MCPImageRec :=
  match pil img.data with
  | .error => none
  | .ok fmt? =>
      some { base64_data := String.mk (b64Encode img.data)
           , format := pyLower (fmt?.getD "PNG")
           , filename := img.filename }

/-- `FeedbackDialog.submit_feedback_pyside`: the emitted feedback list.
`textRaw` is `self.text_widget.toPlainText()`; the stripped text is included
first when non-empty and distinct from the placeholder, then each selected
image that still decodes, in order. -/
def submit_feedback_pyside (pil : ByteSeq → PILResult)
    (textRaw : String) (images : List SelectedImage) : List FeedbackItem :=
  (if pyStrip textRaw ≠ "" ∧ pyStrip textRaw ≠ placeholderText
     then [FeedbackItem.text (pyStrip textRaw)] else [])
  ++ images.filterMap (fun img => (imageToRecord pil img).map FeedbackItem.image)

/-- How a dialog run ends: the user submits (with the text field holding
`textRaw` and the image list `images`), the user cancels / closes the
window, or the timeout timer fires. -/
inductive DialogOutcome where
  | submitted (textRaw : String) (images : List SelectedImage) : DialogOutcome
  | cancelled : DialogOutcome
  | timedOut : DialogOutcome
deriving DecidableEq

/-- `FeedbackDialog.show_dialog_pyside`: `exec_` returns `Accepted` only on
submit, in which case the emitted list is returned; cancel and timeout both
reject the dialog and yield `None` (the timeout path emits `None`, which the
slot ignores). -/
def show_dialog_pyside (pil : ByteSeq → PILResult) :
    DialogOutcome → Option (List FeedbackItem)
  | .submitted t imgs => some (submit_feedback_pyside pil t imgs)
  | .cancelled => none
  | .timedOut => none

/-- The per-item conversion loop of `collect_feedback`: strings pass
through; image dictionaries are rebuilt as `MCPImage` objects from the same
three fields. -/
def processFeedbackItem : FeedbackItem → Option FeedbackItem
  | .text s => some (.text s)
  | .image rec =>
      some (.image { base64_data := rec.base64_data
                   , format := rec.format
                   , filename := rec.filename })

/-- The MCP tool `collect_feedback`, from the dialog outcome on: `None`
(cancel / timeout) and the empty submitted list both return `[]`; otherwise
each item is converted by `processFeedbackItem`. -/
def collect_feedback (pil : ByteSeq → PILResult) (outcome : DialogOutcome) :
    List FeedbackItem :=
  match show_dialog_pyside pil outcome with
  | none => []
  | some feedback_data =>
      if feedback_data = [] then []
      else feedback_data.filterMap processFeedbackItem

/-! ## Timeout behaviour -/

/-- A terminal user action on the open dialog. -/
inductive UserTerminal where
  | submitAct (textRaw : String) (images : List SelectedImage) : UserTerminal
  | cancelAct : UserTerminal
deriving DecidableEq

/-- The outcome a terminal user action produces. -/
def outcomeOf : UserTerminal → DialogOutcome
  | .submitAct t imgs => .submitted t imgs
  | .cancelAct => .cancelled

/-- How the dialog terminates, given its `timeout_seconds` value `T` and the
(possibly absent) first terminal user action together with its time in
seconds after dialog creation.  The timer is armed only when `T > 0`
(`if self.timeout_seconds > 0` in `__init__`) and fires at `T` seconds,
so a user action strictly before `T` wins; with no timer and no action the
dialog never terminates (`none`). -/
def dialogTerminal (T : Int) (run : Option (Nat × UserTerminal)) :
    Option DialogOutcome :=
  match run with
  | none => if 0 < T then some .timedOut else none
  | some (t, act) =>
      if 0 < T ∧ T ≤ (t : Int) then some .timedOut else some (outcomeOf act)

/-! ## Image-list mutations -/

/-- `FeedbackDialog.remove_image_pyside`: delete the entry at `index` when
`0 <= index < len(self.selected_images_data)`, otherwise do nothing. -/
def remove_image_pyside (images : List SelectedImage) (index : Int) :
    List SelectedImage :=
  if 0 ≤ index ∧ index < images.length then images.eraseIdx index.toNat
  else images

/-- `FeedbackDialog.clear_all_images_pyside`: when the list is non-empty a
confirmation box is shown (`confirmYes` is the user's reply); `Yes` clears
the list.  The second component records whether the confirmation box was
shown. -/
def clear_all_images_pyside (confirmYes : Bool) (images : List SelectedImage) :
    List SelectedImage × Bool :=
  if images ≠ [] then
    (if confirmYes then ([], true) else (images, true))
  else (images, false)

/-- State of the Qt clipboard when queried: the mime data has no image; it
has an image but `clipboard.image()` is null; the image is valid but
`qimage.save` raises; or it is valid and `pngBytes` is its PNG
serialization as produced by `qimage.save(byte_array, "PNG")`. -/
inductive ClipState where
  | noImageData : ClipState
  | nullImage : ClipState
  | saveError : ClipState
  | image (pngBytes : ByteSeq) : ClipState
deriving DecidableEq

/-- The two decimal digits of `n` (zero-padded), as printed by the
zero-padding `strftime` directives. -/
def digits2 (n : Nat) : List Char :=
  [Nat.digitChar (n / 10 % 10), Nat.digitChar (n % 10)]

/-- The four decimal digits of `n` (zero-padded). -/
def digits4 (n : Nat) : List Char :=
  [Nat.digitChar (n / 1000 % 10), Nat.digitChar (n / 100 % 10),
   Nat.digitChar (n / 10 % 10), Nat.digitChar (n % 10)]

/-- Modelled from the spec: the call
`datetime.now().strftime("%Y%m%d_%H%M%S")` (the datetime library is an
external collaborator); it prints the current time's year, month, day,
hour, minute and second, zero-padded, in the `YYYYMMDD_HHMMSS` shape. -/
def strftime_YmdHMS (y mo d h mi s : Nat) : String :=
  String.mk (digits4 y ++ digits2 mo ++ digits2 d ++ ['_'] ++
             digits2 h ++ digits2 mi ++ digits2 s)

/-- The generated clipboard filename `f"clipboard_image_{timestamp}.png"`. -/
def clipboardFilename (y mo d h mi s : Nat) : String :=
  "clipboard_image_" ++ strftime_YmdHMS y mo d h mi s ++ ".png"

/-- `FeedbackDialog.paste_from_clipboard_pyside`: a valid clipboard image is
appended to the image list as its PNG bytes under the generated timestamped
filename; every other clipboard state only shows a message box and leaves
the list unchanged. -/
def paste_from_clipboard_pyside (clip : ClipState) (y mo d h mi s : Nat)
    (images : List SelectedImage) : List SelectedImage :=
  match clip with
  | .image png => images ++ [⟨png, clipboardFilename y mo d h mi s⟩]
  | _ => images

/-! ## `pick_image` -/

/-- Result of the single-file picker branch of `pick_image`: the user picked
no file; reading / decoding the picked file raised; or the file `name` was
read as `bytes` and `Image.open` reported format `fmt?`. -/
inductive FilePickResult where
  | noFile : FilePickResult
  | readError (name : String) : FilePickResult
  | okRead (name : String) (bytes : ByteSeq) (fmt? : Option String) : FilePickResult
deriving DecidableEq

/-- The user's answer to the source-choice message box of `pick_image`,
together with what the chosen source then yields. -/
inductive PickEnv where
  | chooseFile (res : FilePickResult) : PickEnv
  | choosePaste (clip : ClipState) : PickEnv
  | chooseCancel : PickEnv
deriving DecidableEq

/-- The MCP tool `pick_image`.  Every path returns a record; failure paths
return an empty `base64_data` and a diagnostic filename. -/
def pick_image (env : PickEnv) (y mo d h mi s : Nat) : MCPImageRec :=
  match env with
  | .chooseCancel => ⟨"", "", "cancelled_by_user"⟩
  | .chooseFile res =>
      match res with
      | .noFile => ⟨"", "", "no_image_selected_or_error"⟩
      | .readError _ => ⟨"", "", "error_loading_file"⟩
      | .okRead name bytes fmt? =>
          if bytes ≠ [] then
            ⟨String.mk (b64Encode bytes), pyLower (fmt?.getD "PNG"), name⟩
          else ⟨"", "", "no_image_selected_or_error"⟩
  | .choosePaste clip =>
      match clip with
      | .saveError => ⟨"", "", "error_processing_clipboard"⟩
      | .image png =>
          if png ≠ [] then
            ⟨String.mk (b64Encode png), "png", clipboardFilename y mo d h mi s⟩
          else ⟨"", "", "no_image_selected_or_error"⟩
      | _ => ⟨"", "", "no_image_selected_or_error"⟩

/-! ## `get_image_info` -/

/-- Result of `open(image_path, "rb")` followed by `f.read()`:
`FileNotFoundError`, some other raised error with message `msg`, or the
file's bytes. -/
inductive FileResult where
  | notFound : FileResult
  | ioError (msg : String) : FileResult
  | ok (bytes : ByteSeq) : FileResult
deriving DecidableEq

/-- Result of `Image.open` when its format and size are queried: the call
raised with message `msg`, or it reports `format` and pixel size
`(width, height)`. -/
inductive PILInfoResult where
  | error (msg : String) : PILInfoResult
  | ok (format : Option String) (width : Nat) (height : Nat) : PILInfoResult
deriving DecidableEq

/-- How Python prints `pil_img.format` inside the f-string. -/
def pyFormat : Option String → String
  | none => "None"
  | some f => f

/-- The MCP tool `get_image_info`: read the file, open it with PIL and
report format and size; `FileNotFoundError` and generic errors each return
their own descriptive string. -/
def get_image_info (fs : String → FileResult) (pilInfo : ByteSeq → PILInfoResult)
    (image_path : String) : String :=
  match fs image_path with
  | .notFound => "Error: Image file not found at " ++ image_path
  | .ioError e => "Error processing image " ++ image_path ++ ": " ++ e
  | .ok bytes =>
      match pilInfo bytes with
      | .error e => "Error processing image " ++ image_path ++ ": " ++ e
      | .ok fmt? w h =>
          "Image format: " ++ pyFormat fmt? ++ ", size: (" ++
          toString w ++ ", " ++ toString h ++ ")"

/-! ## Test environments (concrete instantiations of the external effects) -/

/-- A codec that decodes any non-empty byte string as a PNG. -/
def pilPNG : ByteSeq → PILResult :=
  fun bs => if bs = [] then .error else .ok (some "PNG")

/-- A filesystem with a single missing path. -/
def fsTest : String → FileResult :=
  fun p => if p = "missing.png" then .notFound else .ok [1, 2, 3]

/-- A codec-info oracle reporting a 10x20 PNG for any bytes. -/
def pilInfoTest : ByteSeq → PILInfoResult :=
  fun _ => .ok (some "PNG") 10 20

/-! ## Base64 lemmas -/

lemma b64Index_b64Char : ∀ n < 64, b64Index (b64Char n) = n := by decide

lemma b64Char_ne_pad : ∀ n < 64, b64Char n ≠ '=' := by decide

/-- Decoding inverts encoding on byte strings. -/
theorem b64_roundtrip : ∀ B : ByteSeq, (∀ x ∈ B, x < 256) → b64Decode (b64Encode B) = B
  | [], _ => rfl
  | [a], h => by
      have ha : a < 256 := h a (by simp)
      have h1 : a / 4 < 64 := by omega
      have h2 : a % 4 * 16 < 64 := by omega
      simp only [b64Encode, b64Decode, if_true]
      rw [b64Index_b64Char _ h1, b64Index_b64Char _ h2]
      simp only [List.cons.injEq, and_true]
      omega
  | [a, b], h => by
      have ha : a < 256 := h a (by simp)
      have hb : b < 256 := h b (by simp)
      have h1 : a / 4 < 64 := by omega
      have h2 : a % 4 * 16 + b / 16 < 64 := by omega
      have h3 : b % 16 * 4 < 64 := by omega
      simp only [b64Encode, b64Decode]
      rw [if_neg (b64Char_ne_pad _ h3)]
      simp only [if_true]
      rw [b64Index_b64Char _ h1, b64Index_b64Char _ h2, b64Index_b64Char _ h3]
      simp only [List.cons.injEq, and_true]
      omega
  | a :: b :: c :: rest, h => by
      have ha : a < 256 := h a (by simp)
      have hb : b < 256 := h b (by simp)
      have hc : c < 256 := h c (by simp)
      have ih : b64Decode (b64Encode rest) = rest :=
        b64_roundtrip rest (fun x hx => h x (by simp [hx]))
      have h1 : a / 4 < 64 := by omega
      have h2 : a % 4 * 16 + b / 16 < 64 := by omega
      have h3 : b % 16 * 4 + c / 64 < 64 := by omega
      have h4 : c % 64 < 64 := by omega
      simp only [b64Encode, b64Decode]
      rw [if_neg (b64Char_ne_pad _ h3), if_neg (b64Char_ne_pad _ h4),
          b64Index_b64Char _ h1, b64Index_b64Char _ h2,
          b64Index_b64Char _ h3, b64Index_b64Char _ h4, ih]
      simp only [List.cons.injEq, and_true]
      refine ⟨by omega, by omega, by omega⟩

lemma b64Encode_ne_nil : ∀ bs : ByteSeq, bs ≠ [] → b64Encode bs ≠ []
  | [], h => absurd rfl h
  | [_], _ => by simp [b64Encode]
  | [_, _], _ => by simp [b64Encode]
  | _ :: _ :: _ :: _, _ => by simp [b64Encode]

/-! ## Helper lemmas on the feedback pipeline -/

lemma processFeedbackItem_eq_some (item : FeedbackItem) :
    processFeedbackItem item = some item := by
  cases item with
  | text s => rfl
  | image rec => rfl

lemma filterMap_process (l : List FeedbackItem) :
    l.filterMap processFeedbackItem = l := by
  induction l with
  | nil => rfl
  | cons x xs ih => simp [List.filterMap_cons, processFeedbackItem_eq_some, ih]

lemma eraseIdx_eq_take_drop {α : Type} : ∀ (l : List α) (n : Nat),
    l.eraseIdx n = l.take n ++ l.drop (n + 1)
  | [], _ => by simp [List.eraseIdx]
  | _ :: _, 0 => by simp [List.eraseIdx]
  | x :: xs, n + 1 => by
      simp [List.eraseIdx, eraseIdx_eq_take_drop xs n]

/-! ## Claim theorems -/

/-- C1: `collect_feedback` always returns a list (its result type), and that
list is empty for the Cancelled and TimedOut outcomes, and also when the
dialog is Submitted with an empty (after trimming) text field and no
images. -/
theorem collect_feedback_empty_cases (pil : ByteSeq → PILResult) (t : String)
    (ht : pyStrip t = "") :
    collect_feedback pil DialogOutcome.cancelled = [] ∧
    collect_feedback pil DialogOutcome.timedOut = [] ∧
    collect_feedback pil (DialogOutcome.submitted t []) = [] := by
  refine ⟨rfl, rfl, ?_⟩
  simp [collect_feedback, show_dialog_pyside, submit_feedback_pyside, ht]

theorem collect_feedback_empty_cases_witness :
    collect_feedback pilPNG DialogOutcome.cancelled = [] ∧
    collect_feedback pilPNG DialogOutcome.timedOut = [] ∧
    collect_feedback pilPNG (DialogOutcome.submitted "" []) = [] :=
  collect_feedback_empty_cases pilPNG "" (by decide)

/-- C2: submitting includes a text item exactly when the trimmed text is
non-empty and differs from the placeholder hint; in that case the single
text item equals the trimmed string and comes first, before the image
items; otherwise no text item appears at all. -/
theorem submit_feedback_text_spec (pil : ByteSeq → PILResult) (t : String)
    (imgs : List SelectedImage) :
    (pyStrip t ≠ "" ∧ pyStrip t ≠ placeholderText →
      ∃ rest, submit_feedback_pyside pil t imgs =
          FeedbackItem.text (pyStrip t) :: rest ∧
        ∀ x ∈ rest, ∀ s, x ≠ FeedbackItem.text s) ∧
    (pyStrip t = "" ∨ pyStrip t = placeholderText →
      ∀ x ∈ submit_feedback_pyside pil t imgs, ∀ s, x ≠ FeedbackItem.text s) := by
  have himg : ∀ x ∈ imgs.filterMap
      (fun img => (imageToRecord pil img).map FeedbackItem.image),
      ∀ s, x ≠ FeedbackItem.text s := by
    intro x hx s
    rw [List.mem_filterMap] at hx
    obtain ⟨img, _, hmap⟩ := hx
    rw [Option.map_eq_some'] at hmap
    obtain ⟨rec, _, hx'⟩ := hmap
    subst hx'
    simp
  constructor
  · intro h
    refine ⟨_, ?_, himg⟩
    rw [submit_feedback_pyside, if_pos h]
    rfl
  · intro h x hx
    rw [submit_feedback_pyside, if_neg ?_] at hx
    · exact himg x (by simpa using hx)
    · rcases h with h | h <;> simp [h]

theorem submit_feedback_text_spec_witness :
    ∃ rest, submit_feedback_pyside pilPNG " hi " [] =
        FeedbackItem.text (pyStrip " hi ") :: rest ∧
      ∀ x ∈ rest, ∀ s, x ≠ FeedbackItem.text s :=
  (submit_feedback_text_spec pilPNG " hi " []).1 (by constructor <;> decide)

/-- C3: with `timeout_seconds ≤ 0` no timer is armed and no run of the
dialog ever terminates as TimedOut; with `timeout_seconds = T > 0`, a run
with no terminal user action strictly before `T` seconds terminates as
TimedOut, and the tool boundary turns a TimedOut outcome into the empty
list. -/
theorem dialog_timeout_spec (T : Int) (pil : ByteSeq → PILResult) :
    (T ≤ 0 → ∀ run, dialogTerminal T run ≠ some DialogOutcome.timedOut) ∧
    (0 < T → ∀ run, (∀ (t : Nat) (act : UserTerminal), run = some (t, act) → T ≤ (t : Int)) →
      dialogTerminal T run = some DialogOutcome.timedOut ∧
      collect_feedback pil DialogOutcome.timedOut = []) := by
  constructor
  · intro hT run
    have hT' : ¬ 0 < T := by omega
    match run with
    | none => simp [dialogTerminal, hT']
    | some (t, act) =>
        simp only [dialogTerminal]
        rw [if_neg (by omega)]
        cases act <;> simp [outcomeOf]
  · intro hT run hrun
    refine ⟨?_, rfl⟩
    match run with
    | none => simp [dialogTerminal, hT]
    | some (t, act) =>
        have hle := hrun t act rfl
        simp only [dialogTerminal]
        rw [if_pos ⟨hT, hle⟩]

theorem dialog_timeout_spec_witness :
    dialogTerminal 5 none = some DialogOutcome.timedOut ∧
    collect_feedback pilPNG DialogOutcome.timedOut = [] :=
  (dialog_timeout_spec 5 pilPNG).2 (by decide) none
    (fun _ _ h => Option.noConfusion h)

/-- C8: removing by an in-range index deletes exactly the entry at that
position (the result is the prefix before it followed by the suffix after
it, so relative order is preserved) and shrinks the list by one; an
out-of-range index leaves the list unchanged. -/
theorem remove_image_spec (images : List SelectedImage) (index : Int) :
    (0 ≤ index ∧ index < images.length →
      remove_image_pyside images index =
        images.take index.toNat ++ images.drop (index.toNat + 1) ∧
      (remove_image_pyside images index).length = images.length - 1) ∧
    (¬ (0 ≤ index ∧ index < images.length) →
      remove_image_pyside images index = images) := by
  constructor
  · intro h
    have heq : remove_image_pyside images index = images.eraseIdx index.toNat := by
      rw [remove_image_pyside, if_pos h]
    have ht : index.toNat < images.length := by omega
    refine ⟨heq.trans (eraseIdx_eq_take_drop _ _), ?_⟩
    rw [heq, eraseIdx_eq_take_drop, List.length_append, List.length_take,
        List.length_drop]
    omega
  · intro h
    rw [remove_image_pyside, if_neg h]

theorem remove_image_spec_witness :
    remove_image_pyside [⟨[1], "a"⟩, ⟨[2], "b"⟩] 0 =
      ([⟨[1], "a"⟩, ⟨[2], "b"⟩] : List SelectedImage).take (Int.toNat 0) ++
      ([⟨[1], "a"⟩, ⟨[2], "b"⟩] : List SelectedImage).drop (Int.toNat 0 + 1) ∧
    (remove_image_pyside [⟨[1], "a"⟩, ⟨[2], "b"⟩] 0).length = 2 - 1 :=
  (remove_image_spec [⟨[1], "a"⟩, ⟨[2], "b"⟩] 0).1 (by constructor <;> decide)

/-- C9: on a non-empty list, clear-all asks for confirmation and empties
the list only when the user confirms, leaving it unchanged otherwise; on an
empty list nothing is asked and nothing changes. -/
theorem clear_all_images_spec (confirmYes : Bool) (images : List SelectedImage) :
    (images ≠ [] → confirmYes = true →
      clear_all_images_pyside confirmYes images = ([], true)) ∧
    (images ≠ [] → confirmYes = false →
      clear_all_images_pyside confirmYes images = (images, true)) ∧
    (images = [] →
      clear_all_images_pyside confirmYes images = (images, false)) := by
  refine ⟨fun h1 h2 => ?_, fun h1 h2 => ?_, fun h1 => ?_⟩
  · subst h2; simp [clear_all_images_pyside, h1]
  · subst h2; simp [clear_all_images_pyside, h1]
  · subst h1; simp [clear_all_images_pyside]

theorem clear_all_images_spec_witness :
    clear_all_images_pyside true [⟨[1], "a"⟩] = ([], true) :=
  (clear_all_images_spec true [⟨[1], "a"⟩]).1 (by decide) rfl

/-- C4: an image whose bytes the codec can open contributes a transport
record to the sequence returned by `collect_feedback` whose base64 payload
decodes back to exactly the original file bytes, whose format label is the
lowercased resolved format, and whose filename is the original one. -/
theorem image_roundtrip (pil : ByteSeq → PILResult) (t : String)
    (imgs : List SelectedImage) (img : SelectedImage) (hmem : img ∈ imgs)
    (h256 : ∀ x ∈ img.data, x < 256) (fmt? : Option String)
    (hpil : pil img.data = PILResult.ok fmt?) :
    ∃ rec : MCPImageRec,
      FeedbackItem.image rec ∈
        collect_feedback pil (DialogOutcome.submitted t imgs) ∧
      b64Decode rec.base64_data.data = img.data ∧
      rec.format = pyLower (fmt?.getD "PNG") ∧
      rec.filename = img.filename := by
  refine ⟨⟨String.mk (b64Encode img.data), pyLower (fmt?.getD "PNG"), img.filename⟩,
    ?_, ?_, rfl, rfl⟩
  · have hrecmem : FeedbackItem.image
        ⟨String.mk (b64Encode img.data), pyLower (fmt?.getD "PNG"), img.filename⟩ ∈
        submit_feedback_pyside pil t imgs := by
      rw [submit_feedback_pyside]
      refine List.mem_append.mpr (Or.inr ?_)
      refine List.mem_filterMap.mpr ⟨img, hmem, ?_⟩
      rw [imageToRecord, hpil]
      rfl
    simp only [collect_feedback, show_dialog_pyside]
    rw [if_neg (by
      intro hnil
      rw [hnil] at hrecmem
      exact absurd hrecmem (List.not_mem_nil _))]
    rw [filterMap_process]
    exact hrecmem
  · exact b64_roundtrip img.data h256

theorem image_roundtrip_witness :
    ∃ rec : MCPImageRec,
      FeedbackItem.image rec ∈
        collect_feedback pilPNG
          (DialogOutcome.submitted "" [⟨[1, 2, 255], "a.png"⟩]) ∧
      b64Decode rec.base64_data.data = [1, 2, 255] ∧
      rec.format = pyLower ((some "PNG").getD "PNG") ∧
      rec.filename = "a.png" :=
  image_roundtrip pilPNG "" [⟨[1, 2, 255], "a.png"⟩] ⟨[1, 2, 255], "a.png"⟩
    (by simp) (by decide) (some "PNG") (by decide)

/-- C5: `pick_image` is a total function into transport records; on
cancellation, on load / clipboard-processing failure and when no image is
available it returns a record with empty payload and a diagnostic filename
tag, and an empty payload only ever arises with one of those tags. -/
theorem pick_image_sentinels (y mo d h mi s : Nat) :
    pick_image PickEnv.chooseCancel y mo d h mi s =
      ⟨"", "", "cancelled_by_user"⟩ ∧
    (∀ name, pick_image (PickEnv.chooseFile (FilePickResult.readError name))
      y mo d h mi s = ⟨"", "", "error_loading_file"⟩) ∧
    pick_image (PickEnv.chooseFile FilePickResult.noFile) y mo d h mi s =
      ⟨"", "", "no_image_selected_or_error"⟩ ∧
    pick_image (PickEnv.choosePaste ClipState.saveError) y mo d h mi s =
      ⟨"", "", "error_processing_clipboard"⟩ ∧
    pick_image (PickEnv.choosePaste ClipState.noImageData) y mo d h mi s =
      ⟨"", "", "no_image_selected_or_error"⟩ ∧
    pick_image (PickEnv.choosePaste ClipState.nullImage) y mo d h mi s =
      ⟨"", "", "no_image_selected_or_error"⟩ ∧
    (∀ env, (pick_image env y mo d h mi s).base64_data = "" →
      (pick_image env y mo d h mi s).filename ∈
        ["cancelled_by_user", "error_loading_file",
         "error_processing_clipboard", "no_image_selected_or_error"]) := by
  refine ⟨rfl, fun _ => rfl, rfl, rfl, rfl, rfl, ?_⟩
  intro env hempty
  match env with
  | .chooseCancel => simp [pick_image]
  | .chooseFile .noFile => simp [pick_image]
  | .chooseFile (.readError n) => simp [pick_image]
  | .chooseFile (.okRead n bytes f) =>
      rcases eq_or_ne bytes [] with hb | hb
      · simp [pick_image, hb]
      · exfalso
        have hval : (pick_image (.chooseFile (.okRead n bytes f)) y mo d h mi s).base64_data
            = String.mk (b64Encode bytes) := by
          simp [pick_image, hb]
        rw [hval] at hempty
        have henc : b64Encode bytes = [] := congrArg String.data hempty
        exact b64Encode_ne_nil bytes hb henc
  | .choosePaste .noImageData => simp [pick_image]
  | .choosePaste .nullImage => simp [pick_image]
  | .choosePaste .saveError => simp [pick_image]
  | .choosePaste (.image png) =>
      rcases eq_or_ne png [] with hb | hb
      · simp [pick_image, hb]
      · exfalso
        have hval : (pick_image (.choosePaste (.image png)) y mo d h mi s).base64_data
            = String.mk (b64Encode png) := by
          simp [pick_image, hb]
        rw [hval] at hempty
        have henc : b64Encode png = [] := congrArg String.data hempty
        exact b64Encode_ne_nil png hb henc

theorem pick_image_sentinels_witness :
    pick_image PickEnv.chooseCancel 2025 10 12 0 0 0 =
      ⟨"", "", "cancelled_by_user"⟩ :=
  (pick_image_sentinels 2025 10 12 0 0 0).1

/-- C6: `get_image_info` is a total function into strings; a missing file
yields the dedicated not-found message, a codec failure yields the generic
processing-error message, and a valid 10x20 PNG yields a string that equals
the format/size report and contains "PNG", "10" and "20". -/
theorem get_image_info_spec (fs : String → FileResult)
    (pilInfo : ByteSeq → PILInfoResult) (path : String) :
    (fs path = FileResult.notFound →
      get_image_info fs pilInfo path =
        "Error: Image file not found at " ++ path) ∧
    (∀ bytes e, fs path = FileResult.ok bytes →
      pilInfo bytes = PILInfoResult.error e →
      get_image_info fs pilInfo path =
        "Error processing image " ++ path ++ ": " ++ e) ∧
    (∀ bytes, fs path = FileResult.ok bytes →
      pilInfo bytes = PILInfoResult.ok (some "PNG") 10 20 →
      get_image_info fs pilInfo path = "Image format: PNG, size: (10, 20)" ∧
      (∃ l r, "Image format: PNG, size: (10, 20)".data = l ++ "PNG".data ++ r) ∧
      (∃ l r, "Image format: PNG, size: (10, 20)".data = l ++ "10".data ++ r) ∧
      (∃ l r, "Image format: PNG, size: (10, 20)".data = l ++ "20".data ++ r)) := by
  refine ⟨fun hnf => ?_, fun bytes e h1 h2 => ?_, fun bytes h1 h2 => ?_⟩
  · simp [get_image_info, hnf]
  · simp [get_image_info, h1, h2]
  · refine ⟨?_, ⟨"Image format: ".data, ", size: (10, 20)".data, by decide⟩,
      ⟨"Image format: PNG, size: (".data, ", 20)".data, by decide⟩,
      ⟨"Image format: PNG, size: (10, ".data, ")".data, by decide⟩⟩
    simp only [get_image_info, h1, h2, pyFormat]
    decide

theorem get_image_info_spec_witness :
    get_image_info fsTest pilInfoTest "missing.png" =
      "Error: Image file not found at " ++ "missing.png" :=
  (get_image_info_spec fsTest pilInfoTest "missing.png").1 (by decide)

/-- C7: under the codec's actual behaviour (opening empty byte strings
fails), every image item of a submitted result stems from a selected image
with non-empty bytes and carries the lowercased resolved format, which
falls back to "png" when the codec reports no format; and a selected image
whose bytes fail to decode at submit time is silently dropped while the
rest of the submission is kept. -/
theorem submit_invariant (pil : ByteSeq → PILResult)
    (hpil : ∀ bs fmt?, pil bs = PILResult.ok fmt? → bs ≠ []) :
    (∀ (t : String) (imgs : List SelectedImage) (rec : MCPImageRec),
      FeedbackItem.image rec ∈ submit_feedback_pyside pil t imgs →
      rec.base64_data ≠ "" ∧
      ∃ img ∈ imgs, ∃ fmt?, pil img.data = PILResult.ok fmt? ∧
        img.data ≠ [] ∧
        rec.base64_data = String.mk (b64Encode img.data) ∧
        rec.format = pyLower (fmt?.getD "PNG") ∧
        (fmt? = none → rec.format = "png")) ∧
    (∀ (t : String) (xs ys : List SelectedImage) (bad : SelectedImage),
      pil bad.data = PILResult.error →
      submit_feedback_pyside pil t (xs ++ bad :: ys) =
        submit_feedback_pyside pil t (xs ++ ys)) := by
  constructor
  · intro t imgs rec hmem
    rw [submit_feedback_pyside, List.mem_append] at hmem
    have hmem' : FeedbackItem.image rec ∈ imgs.filterMap
        (fun img => (imageToRecord pil img).map FeedbackItem.image) := by
      rcases hmem with hmem | hmem
      · exfalso
        by_cases hc : pyStrip t ≠ "" ∧ pyStrip t ≠ placeholderText
        · rw [if_pos hc] at hmem
          simp at hmem
        · rw [if_neg hc] at hmem
          simp at hmem
      · exact hmem
    rw [List.mem_filterMap] at hmem'
    obtain ⟨img, himgs, hmap⟩ := hmem'
    rw [Option.map_eq_some'] at hmap
    obtain ⟨rec', hrec', heq⟩ := hmap
    have hrr : rec' = rec := by injection heq
    subst hrr
    cases hp : pil img.data with
    | error => rw [imageToRecord, hp] at hrec'; exact absurd hrec' (by simp)
    | ok fmt? =>
        rw [imageToRecord, hp] at hrec'
        have hrec : rec' =
            ⟨String.mk (b64Encode img.data), pyLower (fmt?.getD "PNG"), img.filename⟩ :=
          (Option.some.injEq _ _).mp hrec' |>.symm
        have hdata : img.data ≠ [] := hpil img.data fmt? hp
        subst hrec
        refine ⟨?_, img, himgs, fmt?, hp, hdata, rfl, rfl, ?_⟩
        · intro hcon
          exact b64Encode_ne_nil img.data hdata (congrArg String.data hcon)
        · intro hnone
          subst hnone
          show pyLower (Option.getD none "PNG") = "png"
          decide
  · intro t xs ys bad hbad
    rw [submit_feedback_pyside, submit_feedback_pyside]
    congr 1
    rw [List.filterMap_append, List.filterMap_append, List.filterMap_cons]
    simp [imageToRecord, hbad]

theorem submit_invariant_witness :
    submit_feedback_pyside pilPNG "" ([] ++ ⟨[], "bad"⟩ :: []) =
      submit_feedback_pyside pilPNG "" ([] ++ []) :=
  (submit_invariant pilPNG (fun bs fmt? hok hbs => by
      rw [hbs] at hok
      simp [pilPNG] at hok)).2 "" [] [] ⟨[], "bad"⟩ (by decide)

lemma digitChar_mod10_isDigit (n : Nat) :
    (Nat.digitChar (n % 10)).isDigit = true := by
  have hall : ∀ m < 10, (Nat.digitChar m).isDigit = true := by decide
  exact hall _ (Nat.mod_lt n (by omega))

/-- C10: a valid clipboard image is appended as exactly one new record at
the end of the list, serialized to its PNG bytes, under the generated
`clipboard_image_<YYYYMMDD_HHMMSS>.png` filename (15 characters, digits
around an underscore at position 8); every other clipboard state leaves the
list unchanged. -/
theorem paste_from_clipboard_spec (y mo d h mi s : Nat)
    (png : ByteSeq) (images : List SelectedImage) :
    paste_from_clipboard_pyside (ClipState.image png) y mo d h mi s images =
      images ++ [⟨png, clipboardFilename y mo d h mi s⟩] ∧
    clipboardFilename y mo d h mi s =
      "clipboard_image_" ++ strftime_YmdHMS y mo d h mi s ++ ".png" ∧
    (strftime_YmdHMS y mo d h mi s).data.length = 15 ∧
    (∀ c ∈ (strftime_YmdHMS y mo d h mi s).data, c.isDigit = true ∨ c = '_') ∧
    (strftime_YmdHMS y mo d h mi s).data.get? 8 = some '_' ∧
    paste_from_clipboard_pyside ClipState.noImageData y mo d h mi s images = images ∧
    paste_from_clipboard_pyside ClipState.nullImage y mo d h mi s images = images ∧
    paste_from_clipboard_pyside ClipState.saveError y mo d h mi s images = images := by
  refine ⟨rfl, rfl, rfl, ?_, rfl, rfl, rfl, rfl⟩
  intro c hc
  have hc' : c ∈ (digits4 y ++ digits2 mo ++ digits2 d ++ ['_'] ++
      digits2 h ++ digits2 mi ++ digits2 s) := hc
  simp only [digits4, digits2, List.mem_append, List.mem_cons,
    List.not_mem_nil, or_false] at hc'
  rcases hc' with ((((((rfl | rfl | rfl | rfl) | (rfl | rfl)) | (rfl | rfl)) | rfl) |
      (rfl | rfl)) | (rfl | rfl)) | (rfl | rfl)
  all_goals first
    | exact Or.inl (digitChar_mod10_isDigit _)
    | exact Or.inr rfl

theorem paste_from_clipboard_spec_witness :
    paste_from_clipboard_pyside (ClipState.image [9]) 2025 10 12 1 2 3 [] =
      [] ++ [⟨[9], clipboardFilename 2025 10 12 1 2 3⟩] :=
  (paste_from_clipboard_spec 2025 10 12 1 2 3 [9] []).1

end MCPFeedback
